import Mathlib

/-!
# Verification of the acad-service academic records module

Shallow embedding of `src/acad-service/main.py` (FastAPI + PostgreSQL service).
The relational store is modelled as in-memory lists; SQL queries become list
filters/joins; Python floats become exact rationals (`ℚ`); `round(x, 2)`
becomes exact rounding of a rational to two decimal places; HTTP error
responses become an `ApiError` inductive carrying the source's status codes.
-/

namespace AcadService

/-- Row of table `mahasiswa` (student); mirrors the `Mahasiswa` pydantic model
(`main.py` lines 37-41): nim, nama, jurusan, angkatan. -/
structure Mahasiswa where
  nim : String
  nama : String
  jurusan : String
  angkatan : Int
  deriving Repr, DecidableEq

/-- Row of table `mata_kuliah` (course); mirrors the `MataKuliah` pydantic model
(`main.py` lines 43-46): kode_mk, nama_mk, sks (credit-weight, an int). -/
structure MataKuliah where
  kode_mk : String
  nama_mk : String
  sks : Nat
  deriving Repr, DecidableEq

/-- Row of table `krs` (enrollment/grade record); mirrors the `KRS` pydantic
model (`main.py` lines 48-52) plus the `id_krs` SERIAL column returned by the
INSERT (line 326). `nilai` is the optional letter grade. -/
structure KRS where
  id_krs : Nat
  nim : String
  kode_mk : String
  nilai : Option String
  semester : Int
  deriving Repr, DecidableEq

/-- Input body of `POST /api/acad/nilai` (the `KRS` pydantic model, without the
generated `id_krs`). -/
structure KRSIn where
  nim : String
  kode_mk : String
  nilai : Option String
  semester : Int
  deriving Repr, DecidableEq

/-- The relational store: tables `mahasiswa`, `mata_kuliah`, `krs`, and the
read-only grade-weight table `bobot_nilai` (letter grade, numeric weight).
`next_id` models the SERIAL sequence backing `krs.id_krs`. -/
structure Db where
  mahasiswa : List Mahasiswa
  mata_kuliah : List MataKuliah
  krs : List KRS
  bobot_nilai : List (String × ℚ)
  next_id : Nat
  deriving Repr

/-- Error taxonomy of the service, one constructor per HTTP status the source
raises: 404 NotFound, 400 Conflict (duplicate), 401 Unauthorized, 403
Forbidden, 503 ServiceUnavailable, 422 request validation (FastAPI/pydantic),
500 internal. -/
inductive ApiError where
  | notFound (detail : String)
  | conflict (detail : String)
  | unauthorized (detail : String)
  | forbidden (detail : String)
  | serviceUnavailable (detail : String)
  | validation (detail : String)
  | internal (detail : String)
  deriving Repr, DecidableEq

/-- HTTP status code assigned by the source to each error class. -/
def ApiError.status : ApiError → Nat
  | .notFound _ => 404
  | .conflict _ => 400
  | .unauthorized _ => 401
  | .forbidden _ => 403
  | .serviceUnavailable _ => 503
  | .validation _ => 422
  | .internal _ => 500

/-- `round(x, 2)` of Python on the exact rational value: round `100·q` to the
nearest integer, divide by 100 (Mathlib `round` is half-up; Python rounds
half-to-even on binary floats — the two agree except at exact ties, which no
claim here depends on). -/
def round2 (q : ℚ) : ℚ := ((round (100 * q) : ℤ) : ℚ) / 100

/-- Weight of an optional letter grade, as both GPA handlers obtain it: the
SQL `LEFT JOIN bobot_nilai bn ON k.nilai = bn.nilai` yields NULL for an absent
grade or a grade with no table entry, and Python then evaluates
`float(row) if row else 0.0` (also mapping a stored weight of 0 to 0.0). -/
def bobotOf (db : Db) : Option String → ℚ
  | none => 0
  | some g =>
    match db.bobot_nilai.find? (fun p => p.1 == g) with
    | none => 0
    | some p => if p.2 == 0 then 0 else p.2

/-- A joined row `krs × mata_kuliah` as produced by
`FROM krs k JOIN mata_kuliah mk ON k.kode_mk = mk.kode_mk`. -/
abbrev Row := KRS × MataKuliah

/-- The inner join with `mata_kuliah`: each krs row is paired with its course;
rows whose course code has no `mata_kuliah` entry are dropped by the join. -/
def joinMk (db : Db) (ks : List KRS) : List Row :=
  ks.filterMap fun k =>
    (db.mata_kuliah.find? (fun mk => mk.kode_mk == k.kode_mk)).map fun mk => (k, mk)

/-- Rows of the IPS query (`main.py` lines 370-376):
`WHERE k.nim = %s AND k.semester = %s`, joined with `mata_kuliah`. -/
def rowsIps (db : Db) (nim : String) (semester : Int) : List Row :=
  joinMk db (db.krs.filter fun k => k.nim == nim && k.semester == semester)

/-- Rows of the IPK query (`main.py` lines 444-451): `WHERE k.nim = %s`,
joined with `mata_kuliah` (before its `ORDER BY k.semester`). -/
def rowsIpk (db : Db) (nim : String) : List Row :=
  joinMk db (db.krs.filter fun k => k.nim == nim)

/-- Insert a row into a list sorted by semester, keeping equal keys stable. -/
def insertBySem (r : Row) : List Row → List Row
  | [] => [r]
  | x :: xs => if r.1.semester ≤ x.1.semester then r :: x :: xs else x :: insertBySem r xs

/-- Stable sort by semester, modelling the `ORDER BY k.semester` of the IPK
query. -/
def sortBySem : List Row → List Row
  | [] => []
  | x :: xs => insertBySem x (sortBySem xs)

/-- Per-course breakdown entry appended in the IPS loop
(`main.py` lines 392-410). -/
structure CourseEntry where
  kode_mk : String
  nama_mk : String
  sks : Nat
  nilai : Option String
  bobot : ℚ
  mutu : ℚ
  deriving Repr, DecidableEq

/-- One iteration of the IPS/IPK accumulation loop for a joined row:
`bobot = float(row) if row else 0.0`, `mutu = bobot * sks`. -/
def entryOf (db : Db) (r : Row) : CourseEntry :=
  let bobot := bobotOf db r.1.nilai
  { kode_mk := r.1.kode_mk
    nama_mk := r.2.nama_mk
    sks := r.2.sks
    nilai := r.1.nilai
    bobot := bobot
    mutu := bobot * (r.2.sks : ℚ) }

/-- `total_sks`: running sum of credit-weights over the loop. -/
def totalSksE (es : List CourseEntry) : Nat := (es.map fun e => e.sks).sum

/-- `total_mutu`: running sum of quality points over the loop. -/
def totalMutuE (es : List CourseEntry) : ℚ := (es.map fun e => e.mutu).sum

/-- Response body of `GET /api/acad/ips/{nim}` (`main.py` lines 414-422). -/
structure IpsReport where
  nim : String
  nama : String
  semester : Int
  mata_kuliah : List CourseEntry
  total_sks : Nat
  total_mutu : ℚ
  ips : ℚ
  deriving Repr, DecidableEq

/-- `hitung_ips` (`main.py` lines 355-427), after the `semester ≥ 1` query
validation: 404 if the student is unknown, 404 if the term has no rows, else
accumulate `total_mutu`/`total_sks`, guard the division, and round the
reported totals. -/
def hitung_ips (db : Db) (nim : String) (semester : Int) : Except ApiError IpsReport :=
  match db.mahasiswa.find? (fun m => m.nim == nim) with
  | none => .error (.notFound "Mahasiswa tidak ditemukan")
  | some m =>
    let rows := rowsIps db nim semester
    if rows.isEmpty then
      .error (.notFound ("Tidak ada data nilai untuk mahasiswa " ++ nim ++
        " di semester " ++ toString semester))
    else
      let entries := rows.map (entryOf db)
      let total_mutu := totalMutuE entries
      let total_sks := totalSksE entries
      let ips := if total_sks > 0 then total_mutu / (total_sks : ℚ) else 0
      .ok { nim := nim
            nama := m.nama
            semester := semester
            mata_kuliah := entries
            total_sks := total_sks
            total_mutu := round2 total_mutu
            ips := round2 ips }

/-- The `GET /api/acad/ips/{nim}` endpoint including the FastAPI query
validation `semester: int = Query(..., ge=1)` (`main.py` line 356): a term
below 1 is rejected with 422 before the store is consulted; there is no upper
bound. -/
def hitung_ips_endpoint (db : Db) (nim : String) (semester : Int) :
    Except ApiError IpsReport :=
  if semester < 1 then
    .error (.validation "semester must be greater than or equal to 1")
  else
    hitung_ips db nim semester

/-- Per-semester breakdown dict built inside `hitung_ipk`
(`main.py` lines 479-495): accumulated in full precision, then `ips` is
computed from the unrounded totals and `total_mutu` overwritten with its
rounded value. -/
structure SemDetail where
  semester : Int
  total_sks : Nat
  total_mutu : ℚ
  ips : ℚ
  deriving Repr, DecidableEq

/-- The finished per-semester entry for term `s`: group the rows of that term,
sum in full precision, then round for output (`ips` from the unrounded
totals, as the source computes it before overwriting `total_mutu`). -/
def semDetail (db : Db) (rows : List Row) (s : Int) : SemDetail :=
  let es := (rows.filter fun r => r.1.semester == s).map (entryOf db)
  let tm := totalMutuE es
  let ts := totalSksE es
  { semester := s
    total_sks := ts
    total_mutu := round2 tm
    ips := round2 (if ts > 0 then tm / (ts : ℚ) else 0) }

/-- Insert an integer into a sorted list of integers. -/
def insertInt (x : Int) : List Int → List Int
  | [] => [x]
  | y :: ys => if x ≤ y then x :: y :: ys else y :: insertInt x ys

/-- Insertion sort on integers, modelling
`sorted(per_semester.values(), key=lambda x: x["semester"])`. -/
def sortInts : List Int → List Int
  | [] => []
  | x :: xs => insertInt x (sortInts xs)

/-- The distinct semester keys of the per-semester dict, in ascending order as
the response sorts them. -/
def sortedSems (rows : List Row) : List Int :=
  sortInts ((rows.map fun r => r.1.semester).dedup)

/-- Response body of `GET /api/acad/ipk/{nim}` (`main.py` lines 499-508). -/
structure IpkReport where
  nim : String
  nama : String
  jurusan : String
  angkatan : Int
  total_sks_kumulatif : Nat
  total_mutu_kumulatif : ℚ
  ipk : ℚ
  detail_per_semester : List SemDetail
  deriving Repr, DecidableEq

/-- `hitung_ipk` (`main.py` lines 429-513): 404 if the student is unknown,
404 if the student has no rows at all, else accumulate grand totals across all
terms in full precision, build the per-semester breakdown, guard the division,
and round only the reported fields. -/
def hitung_ipk (db : Db) (nim : String) : Except ApiError IpkReport :=
  match db.mahasiswa.find? (fun m => m.nim == nim) with
  | none => .error (.notFound "Mahasiswa tidak ditemukan")
  | some m =>
    let rows := sortBySem (rowsIpk db nim)
    if rows.isEmpty then
      .error (.notFound ("Tidak ada data nilai untuk mahasiswa " ++ nim))
    else
      let entries := rows.map (entryOf db)
      let tm := totalMutuE entries
      let ts := totalSksE entries
      let ipk := if ts > 0 then tm / (ts : ℚ) else 0
      .ok { nim := nim
            nama := m.nama
            jurusan := m.jurusan
            angkatan := m.angkatan
            total_sks_kumulatif := ts
            total_mutu_kumulatif := round2 tm
            ipk := round2 ipk
            detail_per_semester := (sortedSems rows).map (semDetail db rows) }

/-- `create_nilai` (`main.py` lines 292-351), after admission and body
validation: 404 unknown student, 404 unknown course, 400 duplicate
`(nim, kode_mk, semester)`, else insert and return the stored record. The
second component is the post-state of the store; on failure the transaction
rolls back (`get_db_connection`, lines 55-65), so the store is returned
unchanged. -/
def create_nilai (db : Db) (input : KRSIn) : Except ApiError KRS × Db :=
  if (db.mahasiswa.find? fun m => m.nim == input.nim).isNone then
    (.error (.notFound "Mahasiswa tidak ditemukan"), db)
  else if (db.mata_kuliah.find? fun mk => mk.kode_mk == input.kode_mk).isNone then
    (.error (.notFound "Mata kuliah tidak ditemukan"), db)
  else if db.krs.any fun k =>
      k.nim == input.nim && k.kode_mk == input.kode_mk && k.semester == input.semester then
    (.error (.conflict "Mahasiswa sudah mengambil mata kuliah ini di semester yang sama"), db)
  else
    let row : KRS :=
      { id_krs := db.next_id
        nim := input.nim
        kode_mk := input.kode_mk
        nilai := input.nilai
        semester := input.semester }
    (.ok row, { db with krs := db.krs ++ [row], next_id := db.next_id + 1 })

/-- Identity returned by the auth service; `data.get('user')` with its
`role` and `username` fields. -/
structure User where
  username : String
  role : String
  deriving Repr, DecidableEq

/-- Outcome of the round-trip to the auth authority: the request errored out
(connection failure or the 5-second timeout, both `httpx.RequestError`), or a
response arrived with a status code and an optional `user` object. -/
inductive AuthOutcome where
  | unreachable
  | response (status : Nat) (user : Option User)
  deriving Repr, DecidableEq

/-- `verify_admin` (`main.py` lines 68-96): no header → 401; authority
unreachable/timeout → 503; non-200 reply → 401; missing user or non-admin
role → 403; else the admin identity. -/
def verify_admin (authorization : Option String) (outcome : AuthOutcome) :
    Except ApiError User :=
  match authorization with
  | none => .error (.unauthorized "No authorization header")
  | some _ =>
    match outcome with
    | .unreachable => .error (.serviceUnavailable "Auth service unavailable")
    | .response status user =>
      if status ≠ 200 then .error (.unauthorized "Invalid token")
      else
        match user with
        | none => .error (.forbidden "Access denied. Admin only.")
        | some u =>
          if u.role ≠ "admin" then .error (.forbidden "Access denied. Admin only.")
          else .ok u

/-- Pydantic validation of the `KRS` body: `semester: int = Field(ge=1, le=14)`
(`main.py` line 52). -/
def validKRSIn (input : KRSIn) : Prop := 1 ≤ input.semester ∧ input.semester ≤ 14

instance (input : KRSIn) : Decidable (validKRSIn input) := by
  unfold validKRSIn; infer_instance

/-- The `POST /api/acad/nilai` endpoint: FastAPI resolves the `verify_admin`
dependency first — its HTTPException surfaces before the body fields are
validated — then pydantic body validation (422), then `create_nilai`; a
request stopped before the insert leaves the store unchanged. -/
def create_nilai_endpoint (authorization : Option String) (outcome : AuthOutcome)
    (db : Db) (input : KRSIn) : Except ApiError KRS × Db :=
  match verify_admin authorization outcome with
  | .error e => (.error e, db)
  | .ok _ =>
    if ¬ validKRSIn input then
      (.error (.validation "semester must be between 1 and 14"), db)
    else create_nilai db input

/-! ### Spec-level abbreviations for the accumulated totals -/

/-- Total credit-weight of a list of joined rows: the sum of the enrolled
courses' `sks`. -/
def sksSum (rows : List Row) : Nat := (rows.map fun x => x.2.sks).sum

/-- Total quality points of a list of joined rows: the sum over enrollments of
`weight(grade) × sks`. -/
def mutuSum (db : Db) (rows : List Row) : ℚ :=
  (rows.map fun x => bobotOf db x.1.nilai * (x.2.sks : ℚ)).sum

/-- The unrounded semester GPA as the IPS loop computes it: quality points
over credit-weight, 0 when the credit-weight is 0. -/
def ipsValue (db : Db) (nim : String) (semester : Int) : ℚ :=
  if sksSum (rowsIps db nim semester) > 0 then
    mutuSum db (rowsIps db nim semester) / (sksSum (rowsIps db nim semester) : ℚ)
  else 0

/-! ### Concrete stores used to exercise the theorems -/

/-- Fixture: one student with two graded courses in term 1
(weights 4 and 3, credits 3 and 2). -/
def dbTwoCourses : Db :=
  { mahasiswa := [⟨"M1", "Ani", "IF", 2020⟩]
    mata_kuliah := [⟨"A", "Course A", 3⟩, ⟨"B", "Course B", 2⟩]
    krs := [⟨1, "M1", "A", some "A", 1⟩, ⟨2, "M1", "B", some "B", 1⟩]
    bobot_nilai := [("A", 4), ("B", 3)]
    next_id := 3 }

/-- Fixture: one student with 3 credits at weight 4 in term 1 and 1 credit at
weight 2 in term 2. -/
def dbTwoTerms : Db :=
  { mahasiswa := [⟨"M1", "Ani", "IF", 2020⟩]
    mata_kuliah := [⟨"A", "Course A", 3⟩, ⟨"C", "Course C", 1⟩]
    krs := [⟨1, "M1", "A", some "A", 1⟩, ⟨2, "M1", "C", some "C", 2⟩]
    bobot_nilai := [("A", 4), ("C", 2)]
    next_id := 3 }

/-- Fixture: one graded course (weight 4, 2 credits) in term 1, and a second
course `Z` (3 credits) available for an ungraded enrollment. -/
def dbGraded : Db :=
  { mahasiswa := [⟨"M1", "Ani", "IF", 2020⟩]
    mata_kuliah := [⟨"A", "Course A", 2⟩, ⟨"Z", "Course Z", 3⟩]
    krs := [⟨1, "M1", "A", some "A", 1⟩]
    bobot_nilai := [("A", 4)]
    next_id := 2 }

/-- An ungraded enrollment of `M1` in course `Z`, term 1. -/
def krsUngraded : KRS := ⟨99, "M1", "Z", none, 1⟩

/-- Fixture: a store whose only course has credit-weight 0, making the
division guard reachable. -/
def dbZeroSks : Db :=
  { mahasiswa := [⟨"M1", "Ani", "IF", 2020⟩]
    mata_kuliah := [⟨"Z", "Course Z", 0⟩]
    krs := [⟨1, "M1", "Z", some "A", 1⟩]
    bobot_nilai := [("A", 4)]
    next_id := 2 }

/-- Fixture: two one-credit courses in term 1 whose weights (1.004 and 1.003)
make the order of rounding observable in the second decimal. -/
def dbRounding : Db :=
  { mahasiswa := [⟨"M1", "Ani", "IF", 2020⟩]
    mata_kuliah := [⟨"P", "Course P", 1⟩, ⟨"Q", "Course Q", 1⟩]
    krs := [⟨1, "M1", "P", some "p", 1⟩, ⟨2, "M1", "Q", some "q", 1⟩]
    bobot_nilai := [("p", 251/250), ("q", 1003/1000)]
    next_id := 3 }

/-! ### Helper lemmas -/

theorem insertBySem_perm (r : Row) (l : List Row) : (insertBySem r l).Perm (r :: l) := by
  induction l with
  | nil => simp [insertBySem]
  | cons x xs ih =>
    rw [insertBySem]
    split
    · exact List.Perm.refl _
    · exact (ih.cons x).trans (List.Perm.swap r x xs)

theorem sortBySem_perm (l : List Row) : (sortBySem l).Perm l := by
  induction l with
  | nil => simp [sortBySem]
  | cons x xs ih => exact (insertBySem_perm x (sortBySem xs)).trans (ih.cons x)

theorem sksSum_sortBySem (l : List Row) : sksSum (sortBySem l) = sksSum l :=
  ((sortBySem_perm l).map _).sum_eq

theorem mutuSum_sortBySem (db : Db) (l : List Row) :
    mutuSum db (sortBySem l) = mutuSum db l :=
  ((sortBySem_perm l).map _).sum_eq

theorem sksSum_filter_sortBySem (l : List Row) (p : Row → Bool) :
    sksSum ((sortBySem l).filter p) = sksSum (l.filter p) :=
  ((((sortBySem_perm l).filter p)).map _).sum_eq

theorem mutuSum_filter_sortBySem (db : Db) (l : List Row) (p : Row → Bool) :
    mutuSum db ((sortBySem l).filter p) = mutuSum db (l.filter p) :=
  ((((sortBySem_perm l).filter p)).map _).sum_eq

theorem totalSksE_map (db : Db) (rows : List Row) :
    totalSksE (rows.map (entryOf db)) = sksSum rows := by
  simp [totalSksE, sksSum, entryOf, List.map_map, Function.comp_def]

theorem totalMutuE_map (db : Db) (rows : List Row) :
    totalMutuE (rows.map (entryOf db)) = mutuSum db rows := by
  simp [totalMutuE, mutuSum, entryOf, List.map_map, Function.comp_def]

/-- `round2` of the guarded quotient equals `round2` of the pure quotient:
when the credit-weight is 0 both sides round 0 (division by zero is 0 in ℚ). -/
theorem round2_div_guard (S : ℚ) (W : ℕ) :
    round2 (if W > 0 then S / (W : ℚ) else 0) = round2 (S / (W : ℚ)) := by
  rcases Nat.eq_zero_or_pos W with h | h
  · subst h; simp
  · simp [h]

theorem round2_zero : round2 0 = 0 := by simp [round2]

theorem round2_mono {a b : ℚ} (h : a ≤ b) : round2 a ≤ round2 b := by
  unfold round2
  have : round (100 * a) ≤ round (100 * b) := by
    rw [round_eq, round_eq]
    exact Int.floor_mono (by linarith)
  have h100 : (0 : ℚ) ≤ 100 := by norm_num
  exact div_le_div_of_nonneg_right (by exact_mod_cast this) h100

/-- Success characterization of `hitung_ips`: when the student exists and the
term has rows, the handler returns the report assembled from the full-precision
sums, rounded only in the reported fields. -/
theorem hitung_ips_spec (db : Db) (nim : String) (sem : Int) (m : Mahasiswa)
    (hm : db.mahasiswa.find? (fun x => x.nim == nim) = some m)
    (hr : rowsIps db nim sem ≠ []) :
    hitung_ips db nim sem = .ok
      { nim := nim
        nama := m.nama
        semester := sem
        mata_kuliah := (rowsIps db nim sem).map (entryOf db)
        total_sks := sksSum (rowsIps db nim sem)
        total_mutu := round2 (mutuSum db (rowsIps db nim sem))
        ips := round2 (mutuSum db (rowsIps db nim sem) /
          (sksSum (rowsIps db nim sem) : ℚ)) } := by
  have he : (rowsIps db nim sem).isEmpty = false := by
    simpa [List.isEmpty_iff] using hr
  rw [hitung_ips, hm]
  simp only [he, Bool.false_eq_true, if_false]
  rw [totalSksE_map, totalMutuE_map, round2_div_guard]

/-- Success characterization of `hitung_ipk`: grand totals accumulated in full
precision over all of the student's rows, rounded only in the reported fields;
the per-semester breakdown is built over the semester-sorted rows. -/
theorem hitung_ipk_spec (db : Db) (nim : String) (m : Mahasiswa)
    (hm : db.mahasiswa.find? (fun x => x.nim == nim) = some m)
    (hr : rowsIpk db nim ≠ []) :
    hitung_ipk db nim = .ok
      { nim := nim
        nama := m.nama
        jurusan := m.jurusan
        angkatan := m.angkatan
        total_sks_kumulatif := sksSum (rowsIpk db nim)
        total_mutu_kumulatif := round2 (mutuSum db (rowsIpk db nim))
        ipk := round2 (mutuSum db (rowsIpk db nim) / (sksSum (rowsIpk db nim) : ℚ))
        detail_per_semester := (sortedSems (sortBySem (rowsIpk db nim))).map
          (semDetail db (sortBySem (rowsIpk db nim))) } := by
  have hs : sortBySem (rowsIpk db nim) ≠ [] := by
    intro h
    apply hr
    have := (sortBySem_perm (rowsIpk db nim)).length_eq
    rw [h] at this
    exact List.length_eq_zero.mp this.symm
  have he : (sortBySem (rowsIpk db nim)).isEmpty = false := by
    simpa [List.isEmpty_iff] using hs
  rw [hitung_ipk, hm]
  simp only [he, Bool.false_eq_true, if_false]
  rw [totalSksE_map, totalMutuE_map, sksSum_sortBySem, mutuSum_sortBySem,
    round2_div_guard]

/-- A per-semester breakdown entry is insensitive to the `ORDER BY semester`
on the rows it groups. -/
theorem semDetail_sortBySem (db : Db) (l : List Row) (s : Int) :
    semDetail db (sortBySem l) s = semDetail db l s := by
  simp only [semDetail]
  rw [totalSksE_map, totalMutuE_map, totalSksE_map, totalMutuE_map,
    sksSum_filter_sortBySem, mutuSum_filter_sortBySem]

/-- Evaluation rule for `bobotOf` when the grade is found with a nonzero
weight. -/
theorem bobotOf_found (db : Db) (g : String) (p : String × ℚ)
    (h : db.bobot_nilai.find? (fun x => x.1 == g) = some p) (hb : p.2 ≠ 0) :
    bobotOf db (some g) = p.2 := by
  simp only [bobotOf, h]
  simp [hb]

/-! ### Claims -/

/-- C1: for every existing student and every term with at least one joined
enrollment row, the Semester GPA operation returns total credit-weight equal
to the sum of the enrolled courses' credit-weights, total quality-points equal
to the (rounded) sum over enrollments of `weight(grade) × credit-weight`, and
GPA equal to the (rounded) quotient of those full-precision totals. The
particular instance with enrollments [(weight 4, credits 3), (weight 3,
credits 2)] — totals 5 and 18, GPA 3.6 — is checked in the companion
witness theorem. -/
theorem ips_report_totals (db : Db) (nim : String) (sem : Int) (m : Mahasiswa)
    (hm : db.mahasiswa.find? (fun x => x.nim == nim) = some m)
    (hr : rowsIps db nim sem ≠ []) :
    ∃ r : IpsReport, hitung_ips db nim sem = .ok r ∧
      r.total_sks = sksSum (rowsIps db nim sem) ∧
      r.total_mutu = round2 (mutuSum db (rowsIps db nim sem)) ∧
      r.ips = round2 (mutuSum db (rowsIps db nim sem) /
        (sksSum (rowsIps db nim sem) : ℚ)) :=
  ⟨_, hitung_ips_spec db nim sem m hm hr, rfl, rfl, rfl⟩

/-- Witness for C1 at the spec's own example: weights 4 and 3 on credits 3 and
2 give total credit-weight 5, quality-points 18, GPA 3.6. -/
theorem ips_report_totals_example :
    (dbTwoCourses.mahasiswa.find? (fun x => x.nim == "M1") =
      some ⟨"M1", "Ani", "IF", 2020⟩) ∧
    rowsIps dbTwoCourses "M1" 1 ≠ [] ∧
    ∃ r : IpsReport, hitung_ips dbTwoCourses "M1" 1 = .ok r ∧
      r.total_sks = 5 ∧ r.total_mutu = 18 ∧ r.ips = 18 / 5 := by
  have hm : dbTwoCourses.mahasiswa.find? (fun x => x.nim == "M1") =
      some ⟨"M1", "Ani", "IF", 2020⟩ := rfl
  have hrows : rowsIps dbTwoCourses "M1" 1 =
      [(⟨1, "M1", "A", some "A", 1⟩, ⟨"A", "Course A", 3⟩),
       (⟨2, "M1", "B", some "B", 1⟩, ⟨"B", "Course B", 2⟩)] := rfl
  have hr : rowsIps dbTwoCourses "M1" 1 ≠ [] := by rw [hrows]; simp
  obtain ⟨r, hok, h1, h2, h3⟩ :=
    ips_report_totals dbTwoCourses "M1" 1 ⟨"M1", "Ani", "IF", 2020⟩ hm hr
  have hW : sksSum (rowsIps dbTwoCourses "M1" 1) = 5 := by rw [hrows]; rfl
  have hS : mutuSum dbTwoCourses (rowsIps dbTwoCourses "M1" 1) = 18 := by
    rw [hrows]
    simp [mutuSum, bobotOf, dbTwoCourses, List.find?]
    norm_num
  refine ⟨hm, hr, r, hok, ?_, ?_, ?_⟩
  · rw [h1, hW]
  · rw [h2, hS, round2, round_eq]; norm_num
  · rw [h3, hS, hW, round2, round_eq]; norm_num

/-- C2: for every student with at least one joined enrollment row, the
cumulative GPA is computed from the grand totals accumulated over all
enrollments of all terms — quality-points over credit-weight — not from the
per-term GPAs. The spec's example (3 credits at weight 4 in term 1, 1 credit
at weight 2 in term 2, giving CGPA 14/4 = 3.5 rather than the per-term mean
3.0) is checked in the companion witness theorem. -/
theorem ipk_grand_totals (db : Db) (nim : String) (m : Mahasiswa)
    (hm : db.mahasiswa.find? (fun x => x.nim == nim) = some m)
    (hr : rowsIpk db nim ≠ []) :
    ∃ r : IpkReport, hitung_ipk db nim = .ok r ∧
      r.total_sks_kumulatif = sksSum (rowsIpk db nim) ∧
      r.total_mutu_kumulatif = round2 (mutuSum db (rowsIpk db nim)) ∧
      r.ipk = round2 (mutuSum db (rowsIpk db nim) /
        (sksSum (rowsIpk db nim) : ℚ)) :=
  ⟨_, hitung_ipk_spec db nim m hm hr, rfl, rfl, rfl⟩

/-- Witness for C2 at the spec's example: term 1 has 3 credits at weight 4,
term 2 has 1 credit at weight 2; the CGPA is 14/4 = 3.5 and in particular not
the per-term mean 3.0. -/
theorem ipk_grand_totals_example :
    (dbTwoTerms.mahasiswa.find? (fun x => x.nim == "M1") =
      some ⟨"M1", "Ani", "IF", 2020⟩) ∧
    rowsIpk dbTwoTerms "M1" ≠ [] ∧
    ∃ r : IpkReport, hitung_ipk dbTwoTerms "M1" = .ok r ∧
      r.total_sks_kumulatif = 4 ∧ r.total_mutu_kumulatif = 14 ∧
      r.ipk = 7 / 2 ∧ r.ipk ≠ 3 := by
  have hm : dbTwoTerms.mahasiswa.find? (fun x => x.nim == "M1") =
      some ⟨"M1", "Ani", "IF", 2020⟩ := rfl
  have hrows : rowsIpk dbTwoTerms "M1" =
      [(⟨1, "M1", "A", some "A", 1⟩, ⟨"A", "Course A", 3⟩),
       (⟨2, "M1", "C", some "C", 2⟩, ⟨"C", "Course C", 1⟩)] := rfl
  have hr : rowsIpk dbTwoTerms "M1" ≠ [] := by rw [hrows]; simp
  obtain ⟨r, hok, h1, h2, h3⟩ :=
    ipk_grand_totals dbTwoTerms "M1" ⟨"M1", "Ani", "IF", 2020⟩ hm hr
  have hW : sksSum (rowsIpk dbTwoTerms "M1") = 4 := by rw [hrows]; rfl
  have hS : mutuSum dbTwoTerms (rowsIpk dbTwoTerms "M1") = 14 := by
    rw [hrows]
    simp [mutuSum, bobotOf, dbTwoTerms, List.find?]
    norm_num
  refine ⟨hm, hr, r, hok, ?_, ?_, ?_, ?_⟩
  · rw [h1, hW]
  · rw [h2, hS, round2, round_eq]; norm_num
  · rw [h3, hS, hW, round2, round_eq]; norm_num
  · rw [h3, hS, hW, round2, round_eq]; norm_num

/-- C4: both GPA computations guard their division: whenever the reported
total credit-weight is 0, the reported GPA (resp. CGPA) is 0 — the division
branch is never taken on a zero denominator. -/
theorem gpa_division_guard :
    (∀ (db : Db) (nim : String) (sem : Int) (r : IpsReport),
      hitung_ips db nim sem = .ok r → r.total_sks = 0 → r.ips = 0) ∧
    (∀ (db : Db) (nim : String) (r : IpkReport),
      hitung_ipk db nim = .ok r → r.total_sks_kumulatif = 0 → r.ipk = 0) := by
  constructor
  · intro db nim sem r h h0
    rw [hitung_ips] at h
    split at h
    · exact absurd h (by simp)
    · dsimp only at h
      split at h
      · exact absurd h (by simp)
      · injection h with h'
        subst h'
        dsimp only at h0
        simp only [h0, gt_iff_lt, lt_self_iff_false, if_false, round2_zero]
  · intro db nim r h h0
    rw [hitung_ipk] at h
    split at h
    · exact absurd h (by simp)
    · dsimp only at h
      split at h
      · exact absurd h (by simp)
      · injection h with h'
        subst h'
        dsimp only at h0
        simp only [h0, gt_iff_lt, lt_self_iff_false, if_false, round2_zero]

/-- Witness for C4: in a store whose only course carries 0 credit-weight both
handlers succeed and report GPA 0 without dividing. -/
theorem gpa_division_guard_example :
    (∃ r : IpsReport, hitung_ips dbZeroSks "M1" 1 = .ok r ∧
      r.total_sks = 0 ∧ r.ips = 0) ∧
    (∃ r : IpkReport, hitung_ipk dbZeroSks "M1" = .ok r ∧
      r.total_sks_kumulatif = 0 ∧ r.ipk = 0) := by
  have hm : dbZeroSks.mahasiswa.find? (fun x => x.nim == "M1") =
      some ⟨"M1", "Ani", "IF", 2020⟩ := rfl
  constructor
  · have hok := hitung_ips_spec dbZeroSks "M1" 1 ⟨"M1", "Ani", "IF", 2020⟩ hm
      (by intro h; exact absurd h (by decide))
    have h0 : sksSum (rowsIps dbZeroSks "M1" 1) = 0 := rfl
    exact ⟨_, hok, h0, (gpa_division_guard).1 dbZeroSks "M1" 1 _ hok h0⟩
  · have hok := hitung_ipk_spec dbZeroSks "M1" ⟨"M1", "Ani", "IF", 2020⟩ hm
      (by intro h; exact absurd h (by decide))
    have h0 : sksSum (rowsIpk dbZeroSks "M1") = 0 := rfl
    exact ⟨_, hok, h0, (gpa_division_guard).2 dbZeroSks "M1" _ hok h0⟩

/-- C5: `create_nilai` fails with NotFound (404) when the student is unknown,
fails with NotFound (404) when the course is unknown, fails with Conflict
(HTTP 400 in the source) when a record already exists for the same
(student, course, term) triple, and otherwise appends the record — grade kept
as given, identifier drawn from the sequence — in every failure case
returning the store unchanged (the transaction rolls back). -/
theorem create_nilai_cases (db : Db) (input : KRSIn) :
    ((db.mahasiswa.find? fun m => m.nim == input.nim) = none →
      create_nilai db input = (.error (.notFound "Mahasiswa tidak ditemukan"), db)) ∧
    (∀ m : Mahasiswa, (db.mahasiswa.find? fun x => x.nim == input.nim) = some m →
      (db.mata_kuliah.find? fun mk => mk.kode_mk == input.kode_mk) = none →
      create_nilai db input = (.error (.notFound "Mata kuliah tidak ditemukan"), db)) ∧
    (∀ (m : Mahasiswa) (mk : MataKuliah),
      (db.mahasiswa.find? fun x => x.nim == input.nim) = some m →
      (db.mata_kuliah.find? fun x => x.kode_mk == input.kode_mk) = some mk →
      (db.krs.any fun k => k.nim == input.nim && k.kode_mk == input.kode_mk &&
        k.semester == input.semester) = true →
      create_nilai db input =
        (.error (.conflict "Mahasiswa sudah mengambil mata kuliah ini di semester yang sama"),
          db)) ∧
    (∀ (m : Mahasiswa) (mk : MataKuliah),
      (db.mahasiswa.find? fun x => x.nim == input.nim) = some m →
      (db.mata_kuliah.find? fun x => x.kode_mk == input.kode_mk) = some mk →
      (db.krs.any fun k => k.nim == input.nim && k.kode_mk == input.kode_mk &&
        k.semester == input.semester) = false →
      ∃ row : KRS,
        create_nilai db input =
          (.ok row, { db with krs := db.krs ++ [row], next_id := db.next_id + 1 }) ∧
        row.nim = input.nim ∧ row.kode_mk = input.kode_mk ∧
        row.nilai = input.nilai ∧ row.semester = input.semester ∧
        row.id_krs = db.next_id) := by
  refine ⟨?_, ?_, ?_, ?_⟩
  · intro h; simp [create_nilai, h]
  · intro m hm hk; simp [create_nilai, hm, hk]
  · intro m mk hm hk hd; simp [create_nilai, hm, hk, hd]
  · intro m mk hm hk hd
    refine ⟨⟨db.next_id, input.nim, input.kode_mk, input.nilai, input.semester⟩,
      ?_, rfl, rfl, rfl, rfl, rfl⟩
    simp [create_nilai, hm, hk, hd]

/-- Witness for C5: on the two-course fixture, an unknown student and an
unknown course each yield NotFound with the store unchanged, a duplicate
(student, course, term) yields Conflict with the store unchanged, and a fresh
triple is appended with the grade kept verbatim. -/
theorem create_nilai_cases_example :
    create_nilai dbTwoCourses ⟨"M2", "A", none, 1⟩ =
      (.error (.notFound "Mahasiswa tidak ditemukan"), dbTwoCourses) ∧
    create_nilai dbTwoCourses ⟨"M1", "X", none, 1⟩ =
      (.error (.notFound "Mata kuliah tidak ditemukan"), dbTwoCourses) ∧
    create_nilai dbTwoCourses ⟨"M1", "A", none, 1⟩ =
      (.error (.conflict "Mahasiswa sudah mengambil mata kuliah ini di semester yang sama"),
        dbTwoCourses) ∧
    ∃ row : KRS,
      create_nilai dbTwoCourses ⟨"M1", "A", some "B", 2⟩ =
        (.ok row, { dbTwoCourses with
          krs := dbTwoCourses.krs ++ [row], next_id := dbTwoCourses.next_id + 1 }) ∧
      row.nilai = some "B" ∧ row.id_krs = 3 := by
  refine ⟨?_, ?_, ?_, ?_⟩
  · exact (create_nilai_cases dbTwoCourses ⟨"M2", "A", none, 1⟩).1 rfl
  · exact (create_nilai_cases dbTwoCourses ⟨"M1", "X", none, 1⟩).2.1
      ⟨"M1", "Ani", "IF", 2020⟩ rfl rfl
  · exact (create_nilai_cases dbTwoCourses ⟨"M1", "A", none, 1⟩).2.2.1
      ⟨"M1", "Ani", "IF", 2020⟩ ⟨"A", "Course A", 3⟩ rfl rfl rfl
  · obtain ⟨row, hrow, _, _, hnilai, _, hid⟩ :=
      (create_nilai_cases dbTwoCourses ⟨"M1", "A", some "B", 2⟩).2.2.2
        ⟨"M1", "Ani", "IF", 2020⟩ ⟨"A", "Course A", 3⟩ rfl rfl rfl
    exact ⟨row, hrow, hnilai, hid⟩

/-- A successful verdict of `verify_admin` is always an admin identity: the
only `.ok` branch sits under the negation of the role test. -/
theorem verify_admin_ok_role (cred : Option String) (out : AuthOutcome) (u : User)
    (h : verify_admin cred out = .ok u) : u.role = "admin" := by
  rcases cred with _ | c
  · simp [verify_admin] at h
  rcases out with _ | ⟨s, uo⟩
  · simp [verify_admin] at h
  by_cases hs : s = 200
  · subst hs
    rcases uo with _ | v
    · simp [verify_admin] at h
    by_cases hr : v.role = "admin"
    · simp [verify_admin, hr] at h
      subst h
      exact hr
    · simp [verify_admin, hr] at h
  · simp [verify_admin, hs] at h

/-- C6: the admission gate's verdicts on a mutating endpoint — no credential
→ Unauthorized (401), credential rejected by the reachable authority →
Unauthorized (401), valid credential with non-admin role → Forbidden (403),
authority unreachable or timed out → ServiceUnavailable (503), with 401, 403
and 503 pairwise distinct — and the store is written only under an admin
verdict. -/
theorem admission_gate_verdicts :
    (∀ out : AuthOutcome,
      verify_admin none out = .error (.unauthorized "No authorization header")) ∧
    (∀ (c : String) (s : Nat) (u : Option User), s ≠ 200 →
      verify_admin (some c) (.response s u) = .error (.unauthorized "Invalid token")) ∧
    (∀ (c : String) (u : User), u.role ≠ "admin" →
      verify_admin (some c) (.response 200 (some u)) =
        .error (.forbidden "Access denied. Admin only.")) ∧
    (∀ c : String,
      verify_admin (some c) .unreachable =
        .error (.serviceUnavailable "Auth service unavailable")) ∧
    (∀ d₁ d₂ d₃ : String,
      (ApiError.unauthorized d₁).status = 401 ∧ (ApiError.forbidden d₂).status = 403 ∧
      (ApiError.serviceUnavailable d₃).status = 503 ∧
      (ApiError.unauthorized d₁).status ≠ (ApiError.forbidden d₂).status ∧
      (ApiError.unauthorized d₁).status ≠ (ApiError.serviceUnavailable d₃).status ∧
      (ApiError.forbidden d₂).status ≠ (ApiError.serviceUnavailable d₃).status) ∧
    (∀ (cred : Option String) (out : AuthOutcome) (u : User),
      verify_admin cred out = .ok u → u.role = "admin") ∧
    (∀ (cred : Option String) (out : AuthOutcome) (db : Db) (input : KRSIn),
      (create_nilai_endpoint cred out db input).2 ≠ db →
      ∃ u, verify_admin cred out = .ok u ∧ u.role = "admin") := by
  refine ⟨fun _ => rfl, ?_, ?_, fun _ => rfl, ?_, ?_, ?_⟩
  · intro c s u hs; simp [verify_admin, hs]
  · intro c u hu; simp [verify_admin, hu]
  · intro d₁ d₂ d₃
    exact ⟨rfl, rfl, rfl, by simp [ApiError.status], by simp [ApiError.status],
      by simp [ApiError.status]⟩
  · exact fun cred out u h => verify_admin_ok_role cred out u h
  · intro cred out db input h
    rw [create_nilai_endpoint] at h
    split at h
    · exact absurd rfl h
    · rename_i u hu
      exact ⟨u, hu, verify_admin_ok_role cred out u hu⟩

/-- Witness for C6: each gate outcome at a concrete credential/authority
pair, and a rejected request leaving the fixture store untouched. -/
theorem admission_gate_verdicts_example :
    verify_admin none .unreachable = .error (.unauthorized "No authorization header") ∧
    verify_admin (some "tok") (.response 500 none) = .error (.unauthorized "Invalid token") ∧
    verify_admin (some "tok") (.response 200 (some ⟨"bob", "mahasiswa"⟩)) =
      .error (.forbidden "Access denied. Admin only.") ∧
    verify_admin (some "tok") .unreachable =
      .error (.serviceUnavailable "Auth service unavailable") ∧
    (create_nilai_endpoint (some "tok") (.response 200 (some ⟨"bob", "mahasiswa"⟩))
      dbTwoCourses ⟨"M1", "A", some "B", 2⟩).2 = dbTwoCourses := by
  obtain ⟨h1, h2, h3, h4, _, _, h7⟩ := admission_gate_verdicts
  refine ⟨h1 _, h2 "tok" 500 none (by decide), h3 "tok" ⟨"bob", "mahasiswa"⟩ (by decide),
    h4 "tok", ?_⟩
  by_contra hne
  obtain ⟨u, hu, _⟩ := h7 (some "tok") (.response 200 (some ⟨"bob", "mahasiswa"⟩))
    dbTwoCourses ⟨"M1", "A", some "B", 2⟩ hne
  rw [h3 "tok" ⟨"bob", "mahasiswa"⟩ (by decide)] at hu
  exact absurd hu (by simp)

/-- C3: an enrollment whose grade is absent, or has no entry in the grade
weight table, is assigned weight 0.0 — contributing 0 quality points while its
full credit-weight still enters the accumulated denominator (the reported GPA
is the rounded `ipsValue`, the quotient over all rows); appending such an
enrollment with positive credit-weight strictly lowers the unrounded semester
GPA whenever it was positive, rather than being excluded. -/
theorem ungraded_weight_zero :
    (∀ db : Db, bobotOf db none = 0) ∧
    (∀ (db : Db) (g : String),
      db.bobot_nilai.find? (fun p => p.1 == g) = none → bobotOf db (some g) = 0) ∧
    (∀ (db : Db) (r : Row), bobotOf db r.1.nilai = 0 →
      (entryOf db r).mutu = 0 ∧ (entryOf db r).sks = r.2.sks) ∧
    (∀ (db : Db) (nim : String) (sem : Int) (m : Mahasiswa),
      db.mahasiswa.find? (fun x => x.nim == nim) = some m →
      rowsIps db nim sem ≠ [] →
      ∃ r, hitung_ips db nim sem = .ok r ∧
        r.total_sks = sksSum (rowsIps db nim sem) ∧
        r.ips = round2 (ipsValue db nim sem)) ∧
    (∀ (db : Db) (nim : String) (sem : Int) (k0 : KRS) (mk0 : MataKuliah),
      k0.nim = nim → k0.semester = sem →
      bobotOf db k0.nilai = 0 →
      db.mata_kuliah.find? (fun x => x.kode_mk == k0.kode_mk) = some mk0 →
      0 < mk0.sks →
      0 < ipsValue db nim sem →
      ipsValue { db with krs := db.krs ++ [k0] } nim sem < ipsValue db nim sem) := by
  refine ⟨fun _ => rfl, ?_, ?_, ?_, ?_⟩
  · intro db g h; simp [bobotOf, h]
  · intro db r h
    exact ⟨by simp [entryOf, h], rfl⟩
  · intro db nim sem m hm hr
    refine ⟨_, hitung_ips_spec db nim sem m hm hr, rfl, ?_⟩
    simp only [ipsValue]
    exact (round2_div_guard _ _).symm
  · intro db nim sem k0 mk0 hnim hsem hb hfind hsks hpos
    have hrows : rowsIps { db with krs := db.krs ++ [k0] } nim sem =
        rowsIps db nim sem ++ [(k0, mk0)] := by
      simp [rowsIps, joinMk, List.filter_append, List.filterMap_append, hnim, hsem, hfind]
    have hW : sksSum (rowsIps db nim sem ++ [(k0, mk0)]) =
        sksSum (rowsIps db nim sem) + mk0.sks := by
      simp [sksSum]
    have hS : mutuSum { db with krs := db.krs ++ [k0] }
        (rowsIps db nim sem ++ [(k0, mk0)]) = mutuSum db (rowsIps db nim sem) := by
      have hb' : bobotOf { db with krs := db.krs ++ [k0] } k0.nilai = 0 := hb
      have hbdb : ∀ n, bobotOf { db with krs := db.krs ++ [k0] } n = bobotOf db n :=
        fun _ => rfl
      simp [mutuSum, hb', hbdb]
      exact Or.inl hb
    have hWpos : 0 < sksSum (rowsIps db nim sem) := by
      by_contra hW0
      rw [ipsValue, if_neg hW0] at hpos
      exact lt_irrefl 0 hpos
    have hSpos : 0 < mutuSum db (rowsIps db nim sem) := by
      rw [ipsValue, if_pos hWpos] at hpos
      rcases div_pos_iff.mp hpos with ⟨h1, _⟩ | ⟨_, h2⟩
      · exact h1
      · exact absurd h2 (not_lt.mpr (Nat.cast_nonneg _))
    rw [ipsValue, ipsValue, hrows, hW, hS, if_pos hWpos,
      if_pos (Nat.add_pos_left hWpos mk0.sks)]
    push_cast
    exact div_lt_div_of_pos_left hSpos (by exact_mod_cast hWpos)
      (by exact_mod_cast Nat.lt_add_of_pos_right hsks)

/-- Witness for C3: on the one-graded-course fixture (GPA 4.0 on 2 credits),
an ungraded 3-credit enrollment has weight 0 and quality points 0, and
appending it drops the unrounded semester GPA from 4 to 8/5. -/
theorem ungraded_weight_zero_example :
    bobotOf dbGraded none = 0 ∧
    bobotOf dbGraded (some "ZZZ") = 0 ∧
    (entryOf dbGraded (krsUngraded, ⟨"Z", "Course Z", 3⟩)).mutu = 0 ∧
    (entryOf dbGraded (krsUngraded, ⟨"Z", "Course Z", 3⟩)).sks = 3 ∧
    ipsValue dbGraded "M1" 1 = 4 ∧
    ipsValue { dbGraded with krs := dbGraded.krs ++ [krsUngraded] } "M1" 1 <
      ipsValue dbGraded "M1" 1 := by
  obtain ⟨h1, h2, h3, _, h5⟩ := ungraded_weight_zero
  have hv : ipsValue dbGraded "M1" 1 = 4 := by
    rw [ipsValue]
    have hrows : rowsIps dbGraded "M1" 1 =
        [(⟨1, "M1", "A", some "A", 1⟩, ⟨"A", "Course A", 2⟩)] := rfl
    rw [hrows]
    norm_num [sksSum, mutuSum, bobotOf, dbGraded, List.find?]
  refine ⟨h1 dbGraded, h2 dbGraded "ZZZ" rfl, ?_, ?_, hv, ?_⟩
  · exact (h3 dbGraded (krsUngraded, ⟨"Z", "Course Z", 3⟩) (h1 dbGraded)).1
  · exact (h3 dbGraded (krsUngraded, ⟨"Z", "Course Z", 3⟩) (h1 dbGraded)).2
  · exact h5 dbGraded "M1" 1 krsUngraded ⟨"Z", "Course Z", 3⟩ rfl rfl (h1 dbGraded) rfl
      (by decide) (by rw [hv]; norm_num)

/-- C7: rounding to 2 decimals happens only on the reported fields, after the
accumulation has completed in full precision: the semester report's
quality-point total and GPA are `round2` of the exact sums, the cumulative
report's grand totals and CGPA are `round2` of the exact grand sums, and each
per-term entry of the cumulative report carries `round2` of its exact per-term
total and a GPA computed from the *unrounded* per-term totals. -/
theorem rounding_only_at_output (db : Db) (nim : String) (m : Mahasiswa)
    (hm : db.mahasiswa.find? (fun x => x.nim == nim) = some m) :
    (∀ sem : Int, rowsIps db nim sem ≠ [] →
      ∃ r, hitung_ips db nim sem = .ok r ∧
        r.total_mutu = round2 (mutuSum db (rowsIps db nim sem)) ∧
        r.ips = round2 (mutuSum db (rowsIps db nim sem) /
          (sksSum (rowsIps db nim sem) : ℚ))) ∧
    (rowsIpk db nim ≠ [] →
      ∃ r, hitung_ipk db nim = .ok r ∧
        r.total_mutu_kumulatif = round2 (mutuSum db (rowsIpk db nim)) ∧
        r.ipk = round2 (mutuSum db (rowsIpk db nim) /
          (sksSum (rowsIpk db nim) : ℚ)) ∧
        ∀ d ∈ r.detail_per_semester,
          d.total_sks =
            sksSum ((rowsIpk db nim).filter fun x => x.1.semester == d.semester) ∧
          d.total_mutu = round2
            (mutuSum db ((rowsIpk db nim).filter fun x => x.1.semester == d.semester)) ∧
          d.ips = round2
            (mutuSum db ((rowsIpk db nim).filter fun x => x.1.semester == d.semester) /
              (sksSum ((rowsIpk db nim).filter fun x => x.1.semester == d.semester) : ℚ))) := by
  constructor
  · intro sem hr
    exact ⟨_, hitung_ips_spec db nim sem m hm hr, rfl, rfl⟩
  · intro hr
    refine ⟨_, hitung_ipk_spec db nim m hm hr, rfl, rfl, ?_⟩
    intro d hd
    simp only [List.mem_map] at hd
    obtain ⟨s, _, hds⟩ := hd
    subst hds
    rw [semDetail_sortBySem]
    have hsem : (semDetail db (rowsIpk db nim) s).semester = s := rfl
    rw [hsem]
    refine ⟨?_, ?_, ?_⟩
    · simp only [semDetail]
      rw [totalSksE_map]
    · simp only [semDetail]
      rw [totalMutuE_map]
    · simp only [semDetail]
      rw [totalSksE_map, totalMutuE_map, round2_div_guard]

/-- Witness for C7: with per-course weights 1.004 and 1.003 on one credit
each, the per-term entry reports total 2.01 and GPA 1.00 (rounded from the
exact 1.0035); recomputing the GPA from the already-rounded total would give
1.01 instead, so the order of rounding is observable. -/
theorem rounding_only_at_output_example :
    ∃ r, hitung_ipk dbRounding "M1" = .ok r ∧
      ∃ d, r.detail_per_semester = [d] ∧
        d.total_sks = 2 ∧ d.total_mutu = 201 / 100 ∧ d.ips = 1 ∧
        round2 (d.total_mutu / (d.total_sks : ℚ)) = 101 / 100 ∧
        d.ips ≠ round2 (d.total_mutu / (d.total_sks : ℚ)) := by
  have hm : dbRounding.mahasiswa.find? (fun x => x.nim == "M1") =
      some ⟨"M1", "Ani", "IF", 2020⟩ := rfl
  have hrows : rowsIpk dbRounding "M1" =
      [(⟨1, "M1", "P", some "p", 1⟩, ⟨"P", "Course P", 1⟩),
       (⟨2, "M1", "Q", some "q", 1⟩, ⟨"Q", "Course Q", 1⟩)] := rfl
  have hr : rowsIpk dbRounding "M1" ≠ [] := by rw [hrows]; simp
  obtain ⟨r, hok, _, _, hdet⟩ :=
    (rounding_only_at_output dbRounding "M1" ⟨"M1", "Ani", "IF", 2020⟩ hm).2 hr
  have hspec := hitung_ipk_spec dbRounding "M1" ⟨"M1", "Ani", "IF", 2020⟩ hm hr
  rw [hok] at hspec
  injection hspec with hrec
  have hsems : sortedSems (sortBySem (rowsIpk dbRounding "M1")) = [1] := rfl
  have hdets : r.detail_per_semester =
      [semDetail dbRounding (sortBySem (rowsIpk dbRounding "M1")) 1] := by
    rw [hrec]
    show (sortedSems (sortBySem (rowsIpk dbRounding "M1"))).map _ = _
    rw [hsems, List.map_cons, List.map_nil]
  set d := semDetail dbRounding (sortBySem (rowsIpk dbRounding "M1")) 1 with hd
  have hmem : d ∈ r.detail_per_semester := by rw [hdets]; simp
  obtain ⟨hW, hM, hips⟩ := hdet d hmem
  have hdsem : d.semester = 1 := rfl
  have hfilter : (rowsIpk dbRounding "M1").filter
      (fun x => x.1.semester == d.semester) = rowsIpk dbRounding "M1" := by
    rw [hdsem, hrows]; rfl
  have hWv : sksSum (rowsIpk dbRounding "M1") = 2 := by rw [hrows]; rfl
  have hbp : bobotOf dbRounding (some "p") = 251 / 250 :=
    bobotOf_found dbRounding "p" ("p", 251 / 250) rfl (by norm_num)
  have hbq : bobotOf dbRounding (some "q") = 1003 / 1000 :=
    bobotOf_found dbRounding "q" ("q", 1003 / 1000) rfl (by norm_num)
  have hMv : mutuSum dbRounding (rowsIpk dbRounding "M1") = 2007 / 1000 := by
    rw [hrows]
    simp only [mutuSum, List.map_cons, List.map_nil, List.sum_cons, List.sum_nil]
    norm_num [hbp, hbq]
  have hR1 : round2 (2007 / 1000 : ℚ) = 201 / 100 := by
    rw [round2, round_eq]; norm_num
  refine ⟨r, hok, d, hdets, ?_, ?_, ?_, ?_, ?_⟩
  · rw [hW, hfilter, hWv]
  · rw [hM, hfilter, hMv, hR1]
  · rw [hips, hfilter, hMv, hWv, round2, round_eq]; norm_num
  · rw [hM, hW, hfilter, hMv, hWv, hR1, round2, round_eq]; norm_num
  · rw [hips, hM, hW, hfilter, hMv, hWv, hR1]
    simp only [round2, round_eq]
    norm_num

/-- Under referential integrity (every enrollment's course exists), the join
drops no rows: it is empty exactly when its input is. -/
theorem joinMk_nil_iff (db : Db) (l : List KRS)
    (h : ∀ k ∈ l, (db.mata_kuliah.find? fun x => x.kode_mk == k.kode_mk).isSome) :
    joinMk db l = [] ↔ l = [] := by
  cases l with
  | nil => simp [joinMk]
  | cons k ks =>
    obtain ⟨mk, hmk⟩ := Option.isSome_iff_exists.mp (h k (by simp))
    simp [joinMk, hmk]

/-- C8: with the store's referential integrity (every enrollment references an
existing course), `hitung_ips` answers NotFound exactly when the student id is
unknown or the student has no enrollment row in the given term, and
`hitung_ipk` answers NotFound exactly when the student id is unknown or the
student has no enrollment row at all; in every other case a report is
returned. -/
theorem gpa_notfound_iff (db : Db)
    (href : ∀ k ∈ db.krs,
      (db.mata_kuliah.find? fun x => x.kode_mk == k.kode_mk).isSome)
    (nim : String) (sem : Int) :
    ((∃ d, hitung_ips db nim sem = .error (.notFound d)) ↔
      (db.mahasiswa.find? fun x => x.nim == nim) = none ∨
      db.krs.filter (fun k => k.nim == nim && k.semester == sem) = []) ∧
    ((∃ r, hitung_ips db nim sem = .ok r) ↔
      ¬ ((db.mahasiswa.find? fun x => x.nim == nim) = none ∨
        db.krs.filter (fun k => k.nim == nim && k.semester == sem) = [])) ∧
    ((∃ d, hitung_ipk db nim = .error (.notFound d)) ↔
      (db.mahasiswa.find? fun x => x.nim == nim) = none ∨
      db.krs.filter (fun k => k.nim == nim) = []) ∧
    ((∃ r, hitung_ipk db nim = .ok r) ↔
      ¬ ((db.mahasiswa.find? fun x => x.nim == nim) = none ∨
        db.krs.filter (fun k => k.nim == nim) = [])) := by
  have hips : rowsIps db nim sem = [] ↔
      db.krs.filter (fun k => k.nim == nim && k.semester == sem) = [] :=
    joinMk_nil_iff db _ (fun k hk => href k (List.mem_of_mem_filter hk))
  have hipk : rowsIpk db nim = [] ↔
      db.krs.filter (fun k => k.nim == nim) = [] :=
    joinMk_nil_iff db _ (fun k hk => href k (List.mem_of_mem_filter hk))
  cases hfind : db.mahasiswa.find? fun x => x.nim == nim with
  | none =>
    refine ⟨?_, ?_, ?_, ?_⟩
    · simp only [hitung_ips, hfind]
      exact ⟨fun _ => Or.inl trivial, fun _ => ⟨_, rfl⟩⟩
    · simp only [hitung_ips, hfind]
      constructor
      · rintro ⟨r, hr⟩; exact absurd hr (by simp)
      · intro h; exact absurd (Or.inl trivial) h
    · simp only [hitung_ipk, hfind]
      exact ⟨fun _ => Or.inl trivial, fun _ => ⟨_, rfl⟩⟩
    · simp only [hitung_ipk, hfind]
      constructor
      · rintro ⟨r, hr⟩; exact absurd hr (by simp)
      · intro h; exact absurd (Or.inl trivial) h
  | some m =>
    have hnone : ¬ (some m = none) := by simp
    refine ⟨?_, ?_, ?_, ?_⟩
    · by_cases he : rowsIps db nim sem = []
      · have : (rowsIps db nim sem).isEmpty = true := by simp [he]
        simp only [hitung_ips, hfind, this, if_true]
        exact ⟨fun _ => Or.inr (hips.mp he), fun _ => ⟨_, rfl⟩⟩
      · rw [hitung_ips_spec db nim sem m hfind he]
        constructor
        · rintro ⟨d, hd⟩; exact absurd hd (by simp)
        · rintro (h | h)
          · exact absurd h hnone
          · exact absurd (hips.mpr h) he
    · by_cases he : rowsIps db nim sem = []
      · have : (rowsIps db nim sem).isEmpty = true := by simp [he]
        simp only [hitung_ips, hfind, this, if_true]
        constructor
        · rintro ⟨r, hr⟩; exact absurd hr (by simp)
        · intro h; exact absurd (Or.inr (hips.mp he)) h
      · rw [hitung_ips_spec db nim sem m hfind he]
        constructor
        · rintro ⟨r, _⟩
          rintro (h | h)
          · exact absurd h hnone
          · exact absurd (hips.mpr h) he
        · intro _; exact ⟨_, rfl⟩
    · by_cases he : rowsIpk db nim = []
      · have hsort : sortBySem (rowsIpk db nim) = [] := by rw [he]; rfl
        have : (sortBySem (rowsIpk db nim)).isEmpty = true := by simp [hsort]
        simp only [hitung_ipk, hfind, this, if_true]
        exact ⟨fun _ => Or.inr (hipk.mp he), fun _ => ⟨_, rfl⟩⟩
      · rw [hitung_ipk_spec db nim m hfind he]
        constructor
        · rintro ⟨d, hd⟩; exact absurd hd (by simp)
        · rintro (h | h)
          · exact absurd h hnone
          · exact absurd (hipk.mpr h) he
    · by_cases he : rowsIpk db nim = []
      · have hsort : sortBySem (rowsIpk db nim) = [] := by rw [he]; rfl
        have : (sortBySem (rowsIpk db nim)).isEmpty = true := by simp [hsort]
        simp only [hitung_ipk, hfind, this, if_true]
        constructor
        · rintro ⟨r, hr⟩; exact absurd hr (by simp)
        · intro h; exact absurd (Or.inr (hipk.mp he)) h
      · rw [hitung_ipk_spec db nim m hfind he]
        constructor
        · rintro ⟨r, _⟩
          rintro (h | h)
          · exact absurd h hnone
          · exact absurd (hipk.mpr h) he
        · intro _; exact ⟨_, rfl⟩

/-- Witness for C8 on the two-course fixture: an unknown student gets
NotFound from both handlers, a term with no enrollments gets NotFound, and
the populated student/term gets a report. -/
theorem gpa_notfound_iff_example :
    (∃ d, hitung_ips dbTwoCourses "M9" 1 = .error (.notFound d)) ∧
    (∃ d, hitung_ips dbTwoCourses "M1" 3 = .error (.notFound d)) ∧
    (∃ r, hitung_ips dbTwoCourses "M1" 1 = .ok r) ∧
    (∃ d, hitung_ipk dbTwoCourses "M9" = .error (.notFound d)) ∧
    (∃ r, hitung_ipk dbTwoCourses "M1" = .ok r) := by
  have href : ∀ k ∈ dbTwoCourses.krs,
      (dbTwoCourses.mata_kuliah.find? fun x => x.kode_mk == k.kode_mk).isSome := by
    decide
  refine ⟨?_, ?_, ?_, ?_, ?_⟩
  · exact (gpa_notfound_iff dbTwoCourses href "M9" 1).1.mpr (Or.inl rfl)
  · exact (gpa_notfound_iff dbTwoCourses href "M1" 3).1.mpr (Or.inr rfl)
  · exact (gpa_notfound_iff dbTwoCourses href "M1" 1).2.1.mpr
      (by rintro (h | h) <;> exact absurd h (by decide))
  · exact (gpa_notfound_iff dbTwoCourses href "M9" 1).2.2.1.mpr (Or.inl rfl)
  · exact (gpa_notfound_iff dbTwoCourses href "M1" 1).2.2.2.mpr
      (by rintro (h | h) <;> exact absurd h (by decide))

/-- C9: the Semester GPA endpoint validates only a lower bound on the term —
a term below 1 is rejected as a validation error before the store is
consulted, any term ≥ 1 is passed through — while enrollment creation
restricts terms to 1-14: a gate-admitted create request with a term above 14
is rejected as a validation error with the store unchanged, so the term bound
is an invariant of the store; hence for an existing student and a term above
14 the query is accepted and answers NotFound, since no stored enrollment can
carry such a term. -/
theorem ips_term_bounds :
    (∀ (db : Db) (nim : String) (sem : Int), sem < 1 →
      hitung_ips_endpoint db nim sem =
        .error (.validation "semester must be greater than or equal to 1")) ∧
    (∀ (db : Db) (nim : String) (sem : Int), 1 ≤ sem →
      hitung_ips_endpoint db nim sem = hitung_ips db nim sem) ∧
    (∀ (db : Db) (nim : String) (sem : Int) (m : Mahasiswa),
      14 < sem → (∀ k ∈ db.krs, k.semester ≤ 14) →
      db.mahasiswa.find? (fun x => x.nim == nim) = some m →
      hitung_ips_endpoint db nim sem =
        .error (.notFound ("Tidak ada data nilai untuk mahasiswa " ++ nim ++
          " di semester " ++ toString sem))) ∧
    (∀ (cred : Option String) (out : AuthOutcome) (db : Db) (input : KRSIn) (u : User),
      verify_admin cred out = .ok u →
      14 < input.semester →
      create_nilai_endpoint cred out db input =
        (.error (.validation "semester must be between 1 and 14"), db)) ∧
    (∀ (cred : Option String) (out : AuthOutcome) (db : Db) (input : KRSIn),
      (∀ k ∈ db.krs, k.semester ≤ 14) →
      ∀ k ∈ (create_nilai_endpoint cred out db input).2.krs, k.semester ≤ 14) := by
  refine ⟨?_, ?_, ?_, ?_, ?_⟩
  · intro db nim sem h
    simp [hitung_ips_endpoint, h]
  · intro db nim sem h
    simp [hitung_ips_endpoint, not_lt.mpr h]
  · intro db nim sem m hgt hbound hm
    have hfilter : db.krs.filter (fun k => k.nim == nim && k.semester == sem) = [] := by
      rw [List.filter_eq_nil_iff]
      intro k hk
      simp only [Bool.and_eq_true, beq_iff_eq, not_and]
      intro _ hksem
      exact absurd (hksem ▸ hbound k hk) (not_le.mpr hgt)
    have hrows : rowsIps db nim sem = [] := by
      rw [rowsIps, hfilter]; rfl
    have hemp : (rowsIps db nim sem).isEmpty = true := by simp [hrows]
    have h1 : ¬ sem < 1 := by omega
    simp only [hitung_ips_endpoint, if_neg h1, hitung_ips, hm, hemp, if_true]
  · intro cred out db input u hu h
    have hv : ¬ validKRSIn input := fun hv => absurd hv.2 (not_le.mpr h)
    simp [create_nilai_endpoint, hu, hv]
  · intro cred out db input hbound k hk
    rw [create_nilai_endpoint] at hk
    split at hk
    · exact hbound k hk
    · split at hk
      · exact hbound k hk
      · rename_i hv
        rw [not_not] at hv
        rw [create_nilai] at hk
        split at hk
        · exact hbound k hk
        · split at hk
          · exact hbound k hk
          · split at hk
            · exact hbound k hk
            · simp only [List.mem_append, List.mem_singleton] at hk
              rcases hk with hk | hk
              · exact hbound k hk
              · rw [hk]; exact hv.2

/-- Witness for C9: on the two-course fixture (all stored terms are 1), term 0
is rejected as validation, term 20 is accepted and answers NotFound, a
gate-admitted create request with term 20 is rejected as validation, and
creation preserves the term bound. -/
theorem ips_term_bounds_example :
    hitung_ips_endpoint dbTwoCourses "M1" 0 =
      .error (.validation "semester must be greater than or equal to 1") ∧
    hitung_ips_endpoint dbTwoCourses "M1" 20 =
      .error (.notFound ("Tidak ada data nilai untuk mahasiswa " ++ "M1" ++
        " di semester " ++ toString (20 : Int))) ∧
    create_nilai_endpoint (some "tok") (.response 200 (some ⟨"root", "admin"⟩))
      dbTwoCourses ⟨"M1", "A", none, 20⟩ =
      (.error (.validation "semester must be between 1 and 14"), dbTwoCourses) ∧
    (∀ k ∈ (create_nilai_endpoint (some "tok") (.response 200 (some ⟨"root", "admin"⟩))
      dbTwoCourses ⟨"M1", "A", none, 2⟩).2.krs, k.semester ≤ 14) := by
  obtain ⟨h1, _, h3, h4, h5⟩ := ips_term_bounds
  refine ⟨h1 dbTwoCourses "M1" 0 (by norm_num), ?_, ?_, ?_⟩
  · exact h3 dbTwoCourses "M1" 20 ⟨"M1", "Ani", "IF", 2020⟩ (by norm_num)
      (by decide) rfl
  · exact h4 (some "tok") (.response 200 (some ⟨"root", "admin"⟩)) dbTwoCourses
      ⟨"M1", "A", none, 20⟩ ⟨"root", "admin"⟩ rfl (by norm_num)
  · exact h5 (some "tok") (.response 200 (some ⟨"root", "admin"⟩)) dbTwoCourses
      ⟨"M1", "A", none, 2⟩ (by decide)

/-- C10: enrollment creation never inspects the grade: for every grade string
(or no grade), if the student and course exist and the (student, course, term)
triple is new, the record is persisted with that grade verbatim; and a grade
with no entry in the weight table is weighted by the GPA computations exactly
like an absent grade (0.0). -/
theorem create_nilai_grade_unchecked :
    (∀ (db : Db) (input : KRSIn) (m : Mahasiswa) (mk : MataKuliah),
      (db.mahasiswa.find? fun x => x.nim == input.nim) = some m →
      (db.mata_kuliah.find? fun x => x.kode_mk == input.kode_mk) = some mk →
      (db.krs.any fun k => k.nim == input.nim && k.kode_mk == input.kode_mk &&
        k.semester == input.semester) = false →
      ∃ row : KRS,
        create_nilai db input =
          (.ok row, { db with krs := db.krs ++ [row], next_id := db.next_id + 1 }) ∧
        row.nilai = input.nilai) ∧
    (∀ (db : Db) (g : String),
      db.bobot_nilai.find? (fun p => p.1 == g) = none →
      bobotOf db (some g) = bobotOf db none) := by
  constructor
  · intro db input m mk hm hk hd
    refine ⟨⟨db.next_id, input.nim, input.kode_mk, input.nilai, input.semester⟩, ?_, rfl⟩
    simp [create_nilai, hm, hk, hd]
  · intro db g h
    simp [bobotOf, h]

/-- Witness for C10: an arbitrary grade string "WEIRD" is persisted verbatim
for a fresh triple, and — having no weight-table entry — weighs 0.0 exactly
like an absent grade. -/
theorem create_nilai_grade_unchecked_example :
    (∃ row : KRS,
      create_nilai dbTwoCourses ⟨"M1", "A", some "WEIRD", 2⟩ =
        (.ok row, { dbTwoCourses with
          krs := dbTwoCourses.krs ++ [row], next_id := dbTwoCourses.next_id + 1 }) ∧
      row.nilai = some "WEIRD") ∧
    bobotOf dbTwoCourses (some "WEIRD") = bobotOf dbTwoCourses none ∧
    bobotOf dbTwoCourses (some "WEIRD") = 0 := by
  obtain ⟨h1, h2⟩ := create_nilai_grade_unchecked
  refine ⟨?_, h2 dbTwoCourses "WEIRD" rfl, ?_⟩
  · exact h1 dbTwoCourses ⟨"M1", "A", some "WEIRD", 2⟩ ⟨"M1", "Ani", "IF", 2020⟩
      ⟨"A", "Course A", 3⟩ rfl rfl rfl
  · rw [h2 dbTwoCourses "WEIRD" rfl]; rfl

end AcadService
